import Mathlib

/-!
Shallow embedding of `src/prefect/_internal/schemas/validators.py` (the
schedule & parameter validation engine) and proofs about its behavior.

Conventions used throughout:

* Python strings are Lean `String`s; slicing `v[:n]` is `strTake v n`,
  `len(v)` is `String.length` (both count characters, as Python does).
* A Python function that may `raise ValueError` is embedded as a function
  into `Except String _` (the `String` is the error message), or into a
  bespoke result inductive when the distinct raise sites matter.
* External grammar engines (croniter, dateutil.rrule) are pure collaborators
  per the spec; they are passed in as oracle parameters so theorems can
  quantify over every possible verdict of the external checker.
* Python dicts (`MutableMapping[str, Any]`) are association lists with the
  insertion-order semantics of CPython dicts: updating an existing key keeps
  its position, adding a new key appends, and keys are unique in any dict a
  caller can actually produce.
-/

/-- Character-level take: the model of the Python slice `s[:n]`. -/
def strTake (s : String) (n : Nat) : String :=
  String.mk (s.data.take n)

/-- Whitespace set of Python `str.split()` with no arguments (ASCII part:
space, tab, newline, carriage return, vertical tab, form feed). -/
def pyWhitespace (c : Char) : Bool :=
  c == ' ' || c == '\t' || c == '\n' || c == '\r' || c == '\x0b' || c == '\x0c'

/-- Accumulator pass for `pySplit`; `acc` holds the current token reversed. -/
def pySplitAux : List Char → List Char → List String
  | [], acc => if acc.isEmpty then [] else [String.mk acc.reverse]
  | c :: rest, acc =>
      if pyWhitespace c then
        if acc.isEmpty then pySplitAux rest []
        else String.mk acc.reverse :: pySplitAux rest []
      else pySplitAux rest (c :: acc)

/-- Model of Python `str.split()` with no arguments: split on runs of
whitespace, dropping empty tokens. -/
def pySplit (s : String) : List String :=
  pySplitAux s.data []

/-- Model of Python `str.casefold()` on the ASCII alphabet: lowercase every
character. The tokens compared in `validate_cron_string` are ASCII. -/
def caseFold (s : String) : String :=
  String.mk (s.data.map Char.toLower)

/-- Fuel-driven worker for `pyReplace`; fuel `length + 1` always suffices
since every step consumes at least one character of the subject. -/
def replaceListFuel : Nat → List Char → List Char → List Char → List Char
  | 0, _, _, l => l
  | Nat.succ fuel, pat, repl, l =>
      match l with
      | [] => []
      | c :: rest =>
          if !pat.isEmpty && pat.isPrefixOf (c :: rest) then
            repl ++ replaceListFuel fuel pat repl ((c :: rest).drop pat.length)
          else
            c :: replaceListFuel fuel pat repl rest

/-- Model of Python `str.replace(pat, repl)`: replace every non-overlapping
occurrence of `pat`, scanning left to right. -/
def pyReplace (s pat repl : String) : String :=
  String.mk (replaceListFuel (s.data.length + 1) pat.data repl.data s.data)

/-!
Cron validation (`validate_cron_string`, validators.py lines 297-308).
The external checker `croniter.is_valid` is an oracle parameter.
-/

/-- Embedding of `validate_cron_string`: first delegate to the external
cron checker, then reject standalone `R`/`H` ("random"/"hashed") field
tokens even when the checker accepted the string. -/
def validate_cron_string (is_valid : String → Bool) (v : String) :
    Except String String :=
  if !is_valid v then
    Except.error ("Invalid cron string: \"" ++ v ++ "\"")
  else if (pySplit v).any (fun c => ["R", "H", "r", "h"].contains (caseFold c)) then
    Except.error ("Random and Hashed expressions are unsupported, received: \"" ++ v ++ "\"")
  else
    Except.ok v

/-!
RRule validation (`validate_rrule_string`, validators.py lines 311-331).
The external parser `dateutil.rrule.rrulestr` is an oracle parameter
returning either success or a ValueError message.
-/

/-- Outcome of `validate_rrule_string`, with one constructor per exit of the
source function: success, the reraise in the `except ValueError` handler
(embedding the full string and the parser diagnostic), and the max-length
raise (embedding `v[:40]` and `len(v)` exactly as interpolated there). -/
inductive RRuleResult where
  | ok (v : String)
  | scheduleSyntaxError (v : String) (detail : String)
  | scheduleLimitError (excerpt : String) (got : Nat)
deriving DecidableEq

/-- Predicate for the max-length error of `validate_rrule_string`. -/
def RRuleResult.isLimitError : RRuleResult → Bool
  | RRuleResult.scheduleLimitError _ _ => true
  | _ => false

/-- Source constant `MAX_RRULE_LENGTH` (approx. one year of RDATEs). -/
def MAX_RRULE_LENGTH : Nat := 6500

/-- Embedding of `validate_rrule_string`: attempt the external parse first
(its failure is reraised immediately), and only then enforce the length cap,
whose error embeds `v[:40]` and `len(v)`. -/
def validate_rrule_string (rrulestr : String → Except String Unit)
    (v : String) : RRuleResult :=
  match rrulestr v with
  | Except.error exc => RRuleResult.scheduleSyntaxError v exc
  | Except.ok _ =>
      if v.length > MAX_RRULE_LENGTH then
        RRuleResult.scheduleLimitError (strTake v 40) v.length
      else
        RRuleResult.ok v

/-- Witness string of length 6501: `"x" * 6501`. -/
def bigX6501 : String :=
  String.mk (List.replicate 6501 'x')

/-!
Timezone defaulting (`default_timezone`, validators.py lines 270-294).
The context mapping is read only at key `"anchor_date"`, whose value is a
pendulum `DateTime`; all that the function inspects of it is `.tz`
(possibly absent) and `.tz.name`, so the anchor is embedded as an optional
timezone name. The IANA table `pendulum.tz.timezones()` is a parameter.
-/

/-- Pendulum `DateTime` as seen by `default_timezone`: `tz` is `none` when
the Python attribute is `None`, otherwise `some` of `tz.name`. -/
structure PDateTime where
  tz : Option String
deriving DecidableEq

/-- Embedding of `default_timezone`. `anchor_date` is the value of the
`"anchor_date"` key of the context mapping when that key is present. -/
def default_timezone (timezones : List String) (v : Option String)
    (anchor_date : Option PDateTime) : Except String (Option String) :=
  match v with
  | some s =>
      if s ≠ "" ∧ s ∉ timezones then
        Except.error ("Invalid timezone: \"" ++ s ++
          "\" (specify in IANA tzdata format, for example, America/New_York)")
      else
        Except.ok (some s)
  | Option.none =>
      match anchor_date with
      | some a =>
          let tz := match a.tz with
            | Option.none => "UTC"
            | some n => n
          Except.ok (some (if tz ∈ timezones then tz else "UTC"))
      | Option.none => Except.ok Option.none

/-!
JSON values and schema conformance
(`validate_values_conform_to_schema`, validators.py lines 91-134).
-/

/-- JSON documents: the shape of both schemas and values mappings. -/
inductive Json where
  | null
  | bool (b : Bool)
  | num (n : Int)
  | str (s : String)
  | arr (xs : List Json)
  | obj (kvs : List (String × Json))

/-- First-match lookup in a JSON object's key/value list. -/
def lookupKV : List (String × Json) → String → Option Json
  | [], _ => Option.none
  | (k, v) :: rest, key => if k = key then some v else lookupKV rest key

/-- Dictionary lookup `obj.get(key)` on a JSON value (none on non-objects). -/
def jsonGet : Json → String → Option Json
  | Json.obj kvs, key => lookupKV kvs key
  | _, _ => Option.none

mutual
/-- Modelled from the spec: `remove_nested_keys`, imported by the source
from `prefect.utilities.collections` which is outside `src/`. Per the spec,
the listed keys are "stripped (recursively, at every nesting level)". -/
def remove_nested_keys (keys : List String) : Json → Json
  | Json.obj kvs => Json.obj (removeNKObj keys kvs)
  | Json.arr xs => Json.arr (removeNKArr keys xs)
  | j => j

/-- Object part of `remove_nested_keys`: drop entries whose key is listed,
recurse into the kept values. -/
def removeNKObj (keys : List String) : List (String × Json) → List (String × Json)
  | [] => []
  | (k, v) :: rest =>
      if k ∈ keys then removeNKObj keys rest
      else (k, remove_nested_keys keys v) :: removeNKObj keys rest

/-- Array part of `remove_nested_keys`: recurse into every element. -/
def removeNKArr (keys : List String) : List Json → List Json
  | [] => []
  | x :: rest => remove_nested_keys keys x :: removeNKArr keys rest
end

mutual
/-- Test whether a key occurs (at any nesting level) in a JSON document. -/
def hasNestedKey (k : String) : Json → Bool
  | Json.obj kvs => hasNKObj k kvs
  | Json.arr xs => hasNKArr k xs
  | _ => false

/-- Object part of `hasNestedKey`. -/
def hasNKObj (k : String) : List (String × Json) → Bool
  | [] => false
  | (k2, v) :: rest => k2 == k || hasNestedKey k v || hasNKObj k rest

/-- Array part of `hasNestedKey`. -/
def hasNKArr (k : String) : List Json → Bool
  | [] => false
  | x :: rest => hasNestedKey k x || hasNKArr k rest
end

/-- Structured failure reported by the external schema engine: the
`json_path` of the failing location (root is `"$"`, components are appended
as `"." ++ name`, exactly how the jsonschema library builds `json_path`)
and the engine's human-readable message. -/
structure VErr where
  json_path : String
  message : String
deriving DecidableEq

/-- Verdict of one call to the external schema engine, matching the three
ways the source's `try` block can end: no exception, a
`jsonschema.ValidationError`, or a `jsonschema.SchemaError`. -/
inductive JsOutcome where
  | ok
  | validationError (e : VErr)
  | schemaError (msg : String)
deriving DecidableEq

/-- Modelled from the spec: the JSON-Schema `type` keyword's matching
relation used by the external engine for primitive type names. -/
def typeMatches (t : String) (j : Json) : Bool :=
  match t, j with
  | "object", Json.obj _ => true
  | "array", Json.arr _ => true
  | "string", Json.str _ => true
  | "integer", Json.num _ => true
  | "number", Json.num _ => true
  | "boolean", Json.bool _ => true
  | "null", Json.null => true
  | _, _ => false

/-- Modelled from the spec: the engine's check of the `type` keyword at one
location. -/
def checkType (path : String) (schema inst : Json) : Option VErr :=
  match jsonGet schema "type" with
  | some (Json.str t) =>
      if typeMatches t inst then Option.none
      else some ⟨path, "value is not of type \x27" ++ t ++ "\x27"⟩
  | _ => Option.none

/-- Modelled from the spec: the engine's check of one `required` list. -/
def checkRequiredList (path : String) (names : List Json) (inst : Json) :
    Option VErr :=
  match names with
  | [] => Option.none
  | Json.str n :: rest =>
      (match inst with
       | Json.obj kvs =>
           if (lookupKV kvs n).isSome then checkRequiredList path rest inst
           else some ⟨path, "\x27" ++ n ++ "\x27 is a required property"⟩
       | _ => checkRequiredList path rest inst)
  | _ :: rest => checkRequiredList path rest inst

/-- Modelled from the spec: the engine's check of the `required` keyword at
one location. -/
def checkRequired (path : String) (schema inst : Json) : Option VErr :=
  match jsonGet schema "required" with
  | some (Json.arr names) => checkRequiredList path names inst
  | _ => Option.none

/-- Modelled from the spec: the external `jsonschema.validate` collaborator,
restricted to the `type` / `required` / `properties` fragment the claims
exercise. Reports the first failure, carrying a `json_path` built exactly as
the jsonschema library builds it (root `"$"`, then `"." ++ name` per step).
Fuel-bounded recursion; the wrapper supplies fuel far beyond any nesting
depth used in this development. -/
def jsValidateFuel : Nat → String → Json → Json → Option VErr
  | 0, _, _, _ => Option.none
  | Nat.succ fuel, path, schema, inst =>
      match checkType path schema inst with
      | some e => some e
      | Option.none =>
          match checkRequired path schema inst with
          | some e => some e
          | Option.none =>
              match jsonGet schema "properties", inst with
              | some (Json.obj props), Json.obj kvs =>
                  props.foldl (fun acc ksub =>
                    match acc with
                    | some e => some e
                    | Option.none =>
                        match lookupKV kvs ksub.1 with
                        | some v =>
                            jsValidateFuel fuel (path ++ "." ++ ksub.1) ksub.2 v
                        | Option.none => Option.none) Option.none
              | _, _ => Option.none

/-- Modelled from the spec: one call of the external schema engine on a
values/schema pair, starting at the document root `"$"`. -/
def jsValidate (values schema : Json) : JsOutcome :=
  match jsValidateFuel 1000 "$" schema values with
  | some e => JsOutcome.validationError e
  | Option.none => JsOutcome.ok

/-- Embedding of `validate_values_conform_to_schema`: strip `required`
constraints when `ignore_required` is set, skip validation when either the
schema or the values are absent, and translate an engine failure into the
field-addressable message of the source (the `!r` of the path, a string
without quotes or backslashes in every use below, is rendered with single
quotes as CPython repr does). -/
def validate_values_conform_to_schema (engine : Json → Json → JsOutcome)
    (values : Option Json) (schema : Option Json) (ignore_required : Bool) :
    Except String Unit :=
  let schema := if ignore_required then schema.map (remove_nested_keys ["required"]) else schema
  match schema, values with
  | some s, some vv =>
      match engine vv s with
      | JsOutcome.ok => Except.ok ()
      | JsOutcome.validationError exc =>
          let error_message :=
            if exc.json_path = "$" then "Validation failed."
            else "Validation failed for field \x27" ++ pyReplace exc.json_path "$." "" ++ "\x27."
          Except.error (error_message ++ " Failure reason: " ++ exc.message)
      | JsOutcome.schemaError msg =>
          Except.error ("The provided schema is not a valid json schema. Schema error: " ++ msg)
  | _, _ => Except.ok ()

/-- Reading of claim C6's words "with the \x27$.\x27 prefix removed from
the path": remove the prefix only, for comparison against what the source
actually computes (`str.replace`, which removes every occurrence). -/
def specPrefixStripped (path : String) : String :=
  if "$.".data.isPrefixOf path.data then String.mk (path.data.drop 2) else path

/-- Test whether an embedded Python call raised (`Except.error`). -/
def exceptIsError {α : Type} : Except String α → Bool
  | Except.error _ => true
  | Except.ok _ => false

/-- Concrete schema for C5: an object with an integer property `a` that is
required. -/
def schemaReq : Json :=
  Json.obj [("type", Json.str "object"),
            ("properties", Json.obj [("a", Json.obj [("type", Json.str "integer")])]),
            ("required", Json.arr [Json.str "a"])]

/-- Concrete values mapping for C5 omitting the required property `a`. -/
def valuesMissing : Json := Json.obj []

/-- Concrete values mapping for C5 whose `a` has the wrong type. -/
def valuesBadType : Json := Json.obj [("a", Json.str "nope")]

/-- Concrete schema for C6 with a property whose name contains `"$."`
once a subpath is appended: the nested failure path is `"$.a$.b"`. -/
def c6schema : Json :=
  Json.obj [("type", Json.str "object"),
            ("properties", Json.obj [("a$",
              Json.obj [("type", Json.str "object"),
                        ("properties", Json.obj [("b",
                          Json.obj [("type", Json.str "integer")])])])])]

/-- Concrete values mapping for C6 failing at path `"$.a$.b"`. -/
def c6values : Json := Json.obj [("a$", Json.obj [("b", Json.str "x")])]

/-- Literal result of stripping `required` from `schemaReq`. -/
def strippedSchemaReq : Json :=
  Json.obj [("type", Json.str "object"),
            ("properties", Json.obj [("a", Json.obj [("type", Json.str "integer")])])]

/-!
Python values and dicts, for the field-migration reconcilers
(validators.py lines 214-253 and 553-567) and the metadata sanitizer
(lines 519-526).
-/

/-- Python values that appear in the configuration mappings handled by the
reconcilers: `None`, booleans, integers and strings. -/
inductive PyVal where
  | none
  | bool (b : Bool)
  | int (n : Int)
  | str (s : String)
deriving DecidableEq

/-- Python truthiness of a `PyVal`. -/
def pyTruthy : PyVal → Bool
  | PyVal.none => false
  | PyVal.bool b => b
  | PyVal.int n => n != 0
  | PyVal.str s => s != ""

/-- Truthiness of a `dict.get(key)` result (an absent key yields `None`,
which is falsy). -/
def pyTruthyOpt : Option PyVal → Bool
  | Option.none => false
  | some v => pyTruthy v

/-- Python comparison `x != 0`: only the integer `0` and `False` equal `0`. -/
def pyNeqZero : PyVal → Bool
  | PyVal.none => true
  | PyVal.bool b => b
  | PyVal.int n => n != 0
  | PyVal.str _ => true

/-- Python `str()` of a `PyVal`. -/
def pyStr : PyVal → String
  | PyVal.none => "None"
  | PyVal.bool true => "True"
  | PyVal.bool false => "False"
  | PyVal.int n => toString n
  | PyVal.str s => s

/-- Insertion-ordered Python dict. -/
abbrev PyDict := List (String × PyVal)

/-- Dict lookup `d.get(key)` (first matching key). -/
def PyDict.get : PyDict → String → Option PyVal
  | [], _ => Option.none
  | (k, v) :: rest, key => if k = key then some v else PyDict.get rest key

/-- Dict lookup with default, `d.get(key, default)`. -/
def pyGetD (d : PyDict) (key : String) (default : PyVal) : PyVal :=
  (PyDict.get d key).getD default

/-- Dict update `d[key] = val`: replace in place when the key exists
(keeping its position, as CPython does), otherwise append. -/
def PyDict.set : PyDict → String → PyVal → PyDict
  | [], key, val => [(key, val)]
  | (k, v) :: rest, key, val =>
      if k = key then (k, val) :: rest
      else (k, v) :: PyDict.set rest key val

/-- Dict removal `d.pop(key, None)` restricted to its effect on the dict:
drop the entry with that key (a dict holds each key at most once). -/
def PyDict.erase (d : PyDict) (key : String) : PyDict :=
  d.filter (fun kv => kv.1 ≠ key)

/-- First `if` block of `set_run_policy_deprecated_fields`: copy a nonzero
legacy `max_retries` into a missing-or-falsy `retries`. In the branch the
`max_retries` key necessarily exists (the default `0` fails `!= 0`), so the
source's `values["max_retries"]` is `pyGetD` of it. -/
def set_retries_stage (values : PyDict) : PyDict :=
  if !pyTruthyOpt (PyDict.get values "retries")
      && pyNeqZero (pyGetD values "max_retries" (PyVal.int 0)) then
    PyDict.set values "retries" (pyGetD values "max_retries" (PyVal.int 0))
  else values

/-- Second `if` block of `set_run_policy_deprecated_fields`: copy a nonzero
legacy `retry_delay_seconds` into a missing-or-falsy `retry_delay`. -/
def set_retry_delay_stage (values : PyDict) : PyDict :=
  if !pyTruthyOpt (PyDict.get values "retry_delay")
      && pyNeqZero (pyGetD values "retry_delay_seconds" (PyVal.int 0)) then
    PyDict.set values "retry_delay" (pyGetD values "retry_delay_seconds" (PyVal.int 0))
  else values

/-- Embedding of `set_run_policy_deprecated_fields` (lines 553-567): the two
sequential legacy-retry-field blocks applied to the mapping. -/
def set_run_policy_deprecated_fields (values : PyDict) : PyDict :=
  set_retry_delay_stage (set_retries_stage values)

/-- Embedding of `remove_old_deployment_fields` (lines 214-244): copy the
mapping and pop the four legacy work-pool keys (the emitted `UserWarning`s
are a diagnostic side channel with no effect on the returned mapping). -/
def remove_old_deployment_fields (values : PyDict) : PyDict :=
  ((((values.erase "worker_pool_queue_id").erase "worker_pool_name").erase
      "worker_pool_queue_name").erase "work_pool_queue_name")

/-- Embedding of `reconcile_paused_deployment` (lines 247-253): default a
missing or `None` `paused` to `False`. -/
def reconcile_paused_deployment (values : PyDict) : PyDict :=
  if (PyDict.get values "paused").getD PyVal.none = PyVal.none then
    PyDict.set values "paused" (PyVal.bool false)
  else values

/-- Body of the loop of `validate_max_metadata_length` applied to one value:
`if len(str(v[key])) > 500: v[key] = str(v[key])[:500] + "..."`. -/
def truncVal (val : PyVal) : PyVal :=
  if (pyStr val).length > 500 then
    PyVal.str (strTake (pyStr val) 500 ++ "...")
  else val

/-- Embedding of `validate_max_metadata_length` (lines 519-526): `None`
passes through; otherwise every over-long value is truncated in place. -/
def validate_max_metadata_length (v : Option PyDict) : Option PyDict :=
  match v with
  | Option.none => Option.none
  | some d => some (d.map (fun kv => (kv.1, truncVal kv.2)))

/-- Witness string `"x" * 600` for C9. -/
def x600 : String :=
  String.mk (List.replicate 600 'x')

/-!
Name-format guards (validators.py lines 38-88). The source calls Python
`re.match(pattern, value)` with the anchored patterns `^[a-z0-9-]*$` and
`^[a-z0-9_]*$`; the match semantics of such a pattern is modelled below.
-/

/-- Character class `[a-z0-9-]` of
`LOWERCASE_LETTERS_NUMBERS_AND_DASHES_ONLY_REGEX`. -/
def allowedDash (c : Char) : Bool :=
  ('a' ≤ c && c ≤ 'z') || ('0' ≤ c && c ≤ '9') || c == '-'

/-- Character class `[a-z0-9_]` of
`LOWERCASE_LETTERS_NUMBERS_AND_UNDERSCORES_REGEX`. -/
def allowedUnderscore (c : Char) : Bool :=
  ('a' ≤ c && c ≤ 'z') || ('0' ≤ c && c ≤ '9') || c == '_'

/-- Model of Python `bool(re.match("^[class]*$", s))` (default flags): the
pattern matches iff every character of `s` is in the class, or `s` ends in a
newline and every character before it is in the class, because `$` in
non-MULTILINE mode also matches just before a single trailing newline. -/
def reMatchClassStarDollar (allowed : Char → Bool) (s : String) : Bool :=
  s.data.all allowed ||
    (s.data.getLast? == some '\n' && s.data.dropLast.all allowed)

/-- Embedding of `raise_on_name_alphanumeric_dashes_only` (lines 54-63). -/
def raise_on_name_alphanumeric_dashes_only (value : Option String)
    (field_name : String) : Except String (Option String) :=
  match value with
  | some s =>
      if !reMatchClassStarDollar allowedDash s then
        Except.error (field_name ++ " must only contain lowercase letters, numbers, and dashes.")
      else Except.ok (some s)
  | Option.none => Except.ok Option.none

/-- Embedding of `raise_on_name_alphanumeric_underscores_only`
(lines 78-88). -/
def raise_on_name_alphanumeric_underscores_only (value : Option String)
    (field_name : String) : Except String (Option String) :=
  match value with
  | some s =>
      if !reMatchClassStarDollar allowedUnderscore s then
        Except.error (field_name ++ " must only contain lowercase letters, numbers, and underscores.")
      else Except.ok (some s)
  | Option.none => Except.ok Option.none

/-!
Helper lemmas. Everything from here on is a theorem; the embedding above is
complete.
-/

theorem PyDict.get_set_self (d : PyDict) (k : String) (v : PyVal) :
    PyDict.get (PyDict.set d k v) k = some v := by
  induction d with
  | nil => simp [PyDict.set, PyDict.get]
  | cons kv rest ih =>
      obtain ⟨k1, v1⟩ := kv
      by_cases h : k1 = k
      · simp [PyDict.set, PyDict.get, h]
      · simp [PyDict.set, PyDict.get, h, ih]

theorem PyDict.get_set_ne (d : PyDict) (k key : String) (v : PyVal)
    (h : key ≠ k) :
    PyDict.get (PyDict.set d k v) key = PyDict.get d key := by
  have h2 : ¬ (k = key) := fun he => h he.symm
  induction d with
  | nil => simp [PyDict.set, PyDict.get, h2]
  | cons kv rest ih =>
      obtain ⟨k1, v1⟩ := kv
      by_cases h1 : k1 = k
      · subst h1
        simp [PyDict.set, PyDict.get, h2]
      · simp only [PyDict.set, if_neg h1, PyDict.get]
        by_cases h3 : k1 = key
        · simp [h3]
        · simp [h3, ih]

theorem PyDict.set_eq_of_get (d : PyDict) (k : String) (v : PyVal)
    (h : PyDict.get d k = some v) :
    PyDict.set d k v = d := by
  induction d with
  | nil => simp [PyDict.get] at h
  | cons kv rest ih =>
      obtain ⟨k1, v1⟩ := kv
      by_cases h1 : k1 = k
      · simp only [PyDict.get, if_pos h1] at h
        simp only [PyDict.set, if_pos h1]
        simp [Option.some_inj.mp h]
      · simp only [PyDict.get, if_neg h1] at h
        simp [PyDict.set, h1, ih h]

theorem PyDict.get_erase_self (d : PyDict) (k : String) :
    PyDict.get (PyDict.erase d k) k = Option.none := by
  induction d with
  | nil => simp [PyDict.erase, PyDict.get]
  | cons kv rest ih =>
      obtain ⟨k1, v1⟩ := kv
      by_cases h : k1 = k
      · simpa [PyDict.erase, List.filter, h] using ih
      · simpa [PyDict.erase, List.filter, h, PyDict.get] using ih

theorem PyDict.get_erase_none (d : PyDict) (k k2 : String)
    (h : PyDict.get d k = Option.none) :
    PyDict.get (PyDict.erase d k2) k = Option.none := by
  induction d with
  | nil => simp [PyDict.erase, PyDict.get]
  | cons kv rest ih =>
      obtain ⟨k1, v1⟩ := kv
      by_cases h1 : k1 = k
      · simp [PyDict.get, h1] at h
      · simp only [PyDict.get, if_neg h1] at h
        by_cases h2 : k1 = k2
        · simpa [PyDict.erase, List.filter, h2] using ih h
        · simpa [PyDict.erase, List.filter, h2, PyDict.get, h1] using ih h

theorem PyDict.erase_of_get_none (d : PyDict) (k : String)
    (h : PyDict.get d k = Option.none) :
    PyDict.erase d k = d := by
  induction d with
  | nil => simp [PyDict.erase]
  | cons kv rest ih =>
      obtain ⟨k1, v1⟩ := kv
      by_cases h1 : k1 = k
      · simp [PyDict.get, h1] at h
      · simp only [PyDict.get, if_neg h1] at h
        simp only [PyDict.erase, List.filter] at ih ⊢
        simp only [show (decide (k1 ≠ k)) = true by simp [h1], ih h]

theorem get_set_retries_stage (w : PyDict) (key : String)
    (h : key ≠ "retries") :
    PyDict.get (set_retries_stage w) key = PyDict.get w key := by
  unfold set_retries_stage
  by_cases hc : (!pyTruthyOpt (PyDict.get w "retries")
      && pyNeqZero (pyGetD w "max_retries" (PyVal.int 0))) = true
  · simp only [hc, if_true]
    exact PyDict.get_set_ne w "retries" key _ h
  · simp only [hc, if_false, Bool.false_eq_true]

theorem get_set_retry_delay_stage (w : PyDict) (key : String)
    (h : key ≠ "retry_delay") :
    PyDict.get (set_retry_delay_stage w) key = PyDict.get w key := by
  unfold set_retry_delay_stage
  by_cases hc : (!pyTruthyOpt (PyDict.get w "retry_delay")
      && pyNeqZero (pyGetD w "retry_delay_seconds" (PyVal.int 0))) = true
  · simp only [hc, if_true]
    exact PyDict.get_set_ne w "retry_delay" key _ h
  · simp only [hc, if_false, Bool.false_eq_true]

theorem set_retries_stage_fix (w : PyDict)
    (hg : PyDict.get w "retries"
        = some (pyGetD w "max_retries" (PyVal.int 0))) :
    set_retries_stage w = w := by
  unfold set_retries_stage
  by_cases hc : (!pyTruthyOpt (PyDict.get w "retries")
      && pyNeqZero (pyGetD w "max_retries" (PyVal.int 0))) = true
  · simp only [hc, if_true]
    exact PyDict.set_eq_of_get w "retries" _ hg
  · simp only [hc, if_false, Bool.false_eq_true]

theorem set_retry_delay_stage_fix (w : PyDict)
    (hg : PyDict.get w "retry_delay"
        = some (pyGetD w "retry_delay_seconds" (PyVal.int 0))) :
    set_retry_delay_stage w = w := by
  unfold set_retry_delay_stage
  by_cases hc : (!pyTruthyOpt (PyDict.get w "retry_delay")
      && pyNeqZero (pyGetD w "retry_delay_seconds" (PyVal.int 0))) = true
  · simp only [hc, if_true]
    exact PyDict.set_eq_of_get w "retry_delay" _ hg
  · simp only [hc, if_false, Bool.false_eq_true]

theorem set_retries_stage_round (x : PyDict) :
    set_retries_stage (set_retry_delay_stage (set_retries_stage x))
      = set_retry_delay_stage (set_retries_stage x) := by
  by_cases hc : (!pyTruthyOpt (PyDict.get x "retries")
      && pyNeqZero (pyGetD x "max_retries" (PyVal.int 0))) = true
  · have hy : set_retries_stage x
        = PyDict.set x "retries" (pyGetD x "max_retries" (PyVal.int 0)) := by
      unfold set_retries_stage
      simp only [hc, if_true]
    apply set_retries_stage_fix
    rw [get_set_retry_delay_stage _ _ (by decide)]
    unfold pyGetD
    rw [get_set_retry_delay_stage _ _ (by decide), hy, PyDict.get_set_self,
      PyDict.get_set_ne _ _ _ _ (by decide)]
    rfl
  · have hy : set_retries_stage x = x := by
      unfold set_retries_stage
      simp only [hc, if_false, Bool.false_eq_true]
    rw [hy]
    have h1 : PyDict.get (set_retry_delay_stage x) "retries"
        = PyDict.get x "retries" :=
      get_set_retry_delay_stage _ _ (by decide)
    have h2 : PyDict.get (set_retry_delay_stage x) "max_retries"
        = PyDict.get x "max_retries" :=
      get_set_retry_delay_stage _ _ (by decide)
    unfold set_retries_stage
    simp only [pyGetD, h1, h2]
    simp only [pyGetD] at hc
    simp only [hc, if_false, Bool.false_eq_true]

theorem set_retry_delay_stage_idem (w : PyDict) :
    set_retry_delay_stage (set_retry_delay_stage w)
      = set_retry_delay_stage w := by
  by_cases hc : (!pyTruthyOpt (PyDict.get w "retry_delay")
      && pyNeqZero (pyGetD w "retry_delay_seconds" (PyVal.int 0))) = true
  · have hy : set_retry_delay_stage w
        = PyDict.set w "retry_delay" (pyGetD w "retry_delay_seconds" (PyVal.int 0)) := by
      unfold set_retry_delay_stage
      simp only [hc, if_true]
    apply set_retry_delay_stage_fix
    rw [hy, PyDict.get_set_self]
    unfold pyGetD
    rw [PyDict.get_set_ne _ _ _ _ (by decide)]
  · have hy : set_retry_delay_stage w = w := by
      unfold set_retry_delay_stage
      simp only [hc, if_false, Bool.false_eq_true]
    rw [hy]
    exact hy

/-- C7: the field-migration reconcilers are idempotent: applying
`set_run_policy_deprecated_fields` twice to any configuration mapping yields
the same mapping as applying it once, and likewise for
`remove_old_deployment_fields`. -/
theorem C7_reconcilers_idempotent (values : PyDict) :
    set_run_policy_deprecated_fields (set_run_policy_deprecated_fields values)
      = set_run_policy_deprecated_fields values
    ∧ remove_old_deployment_fields (remove_old_deployment_fields values)
      = remove_old_deployment_fields values := by
  constructor
  · show set_retry_delay_stage (set_retries_stage
        (set_retry_delay_stage (set_retries_stage values)))
      = set_retry_delay_stage (set_retries_stage values)
    rw [set_retries_stage_round, set_retry_delay_stage_idem]
  · have h1 : PyDict.get (remove_old_deployment_fields values)
        "worker_pool_queue_id" = Option.none :=
      PyDict.get_erase_none _ _ _ (PyDict.get_erase_none _ _ _
        (PyDict.get_erase_none _ _ _ (PyDict.get_erase_self values _)))
    have h2 : PyDict.get (remove_old_deployment_fields values)
        "worker_pool_name" = Option.none :=
      PyDict.get_erase_none _ _ _ (PyDict.get_erase_none _ _ _
        (PyDict.get_erase_self _ _))
    have h3 : PyDict.get (remove_old_deployment_fields values)
        "worker_pool_queue_name" = Option.none :=
      PyDict.get_erase_none _ _ _ (PyDict.get_erase_self _ _)
    have h4 : PyDict.get (remove_old_deployment_fields values)
        "work_pool_queue_name" = Option.none :=
      PyDict.get_erase_self _ _
    show PyDict.erase (PyDict.erase (PyDict.erase (PyDict.erase
        (remove_old_deployment_fields values) "worker_pool_queue_id")
        "worker_pool_name") "worker_pool_queue_name") "work_pool_queue_name"
      = remove_old_deployment_fields values
    rw [PyDict.erase_of_get_none _ _ h1, PyDict.erase_of_get_none _ _ h2,
      PyDict.erase_of_get_none _ _ h3, PyDict.erase_of_get_none _ _ h4]

/-- C8: `set_run_policy_deprecated_fields` copies the legacy retry value
forward exactly when the modern `retries` field is absent or falsy and the
legacy `max_retries` value compares unequal to `0`; in particular on
`{"retries": 0, "max_retries": 3}` the result has `retries == 3` and keeps
the legacy `max_retries` key; and `reconcile_paused_deployment` on
`{"paused": None}` yields `paused == False`. -/
theorem C8_run_policy_and_paused_reconcile :
    (∀ (d : PyDict) (mv : PyVal),
      pyTruthyOpt (PyDict.get d "retries") = false →
      PyDict.get d "max_retries" = some mv →
      pyNeqZero mv = true →
      PyDict.get (set_run_policy_deprecated_fields d) "retries" = some mv)
    ∧ (∀ d : PyDict,
      pyTruthyOpt (PyDict.get d "retries") = true
        ∨ pyNeqZero (pyGetD d "max_retries" (PyVal.int 0)) = false →
      PyDict.get (set_run_policy_deprecated_fields d) "retries"
        = PyDict.get d "retries")
    ∧ PyDict.get (set_run_policy_deprecated_fields
        [("retries", PyVal.int 0), ("max_retries", PyVal.int 3)]) "retries"
      = some (PyVal.int 3)
    ∧ PyDict.get (set_run_policy_deprecated_fields
        [("retries", PyVal.int 0), ("max_retries", PyVal.int 3)]) "max_retries"
      = some (PyVal.int 3)
    ∧ PyDict.get (reconcile_paused_deployment [("paused", PyVal.none)]) "paused"
      = some (PyVal.bool false) := by
  refine ⟨?_, ?_, by decide, by decide, by decide⟩
  · intro d mv hr hm hnz
    have hg : pyGetD d "max_retries" (PyVal.int 0) = mv := by
      unfold pyGetD
      rw [hm]
      rfl
    have hc : (!pyTruthyOpt (PyDict.get d "retries")
        && pyNeqZero (pyGetD d "max_retries" (PyVal.int 0))) = true := by
      rw [hr, hg, hnz]
      rfl
    have hy : set_retries_stage d = PyDict.set d "retries" mv := by
      unfold set_retries_stage
      rw [hg, hr, hnz]
      rfl
    show PyDict.get (set_retry_delay_stage (set_retries_stage d)) "retries"
        = some mv
    rw [get_set_retry_delay_stage _ _ (by decide), hy, PyDict.get_set_self]
  · intro d hor
    have hc : (!pyTruthyOpt (PyDict.get d "retries")
        && pyNeqZero (pyGetD d "max_retries" (PyVal.int 0))) = false := by
      rcases hor with h | h
      · rw [h]
        rfl
      · rw [h]
        simp
    have hy : set_retries_stage d = d := by
      unfold set_retries_stage
      simp only [hc, if_false, Bool.false_eq_true]
    show PyDict.get (set_retry_delay_stage (set_retries_stage d)) "retries"
        = PyDict.get d "retries"
    rw [get_set_retry_delay_stage _ _ (by decide), hy]

/-- Witness for C8: its universally quantified conjuncts applied at the
concrete mapping of the claim. -/
theorem C8_witness :
    PyDict.get (set_run_policy_deprecated_fields
        [("retries", PyVal.int 0), ("max_retries", PyVal.int 3)]) "retries"
      = some (PyVal.int 3)
    ∧ PyDict.get (set_run_policy_deprecated_fields
        [("retries", PyVal.int 7), ("max_retries", PyVal.int 3)]) "retries"
      = PyDict.get [("retries", PyVal.int 7), ("max_retries", PyVal.int 3)] "retries" :=
  ⟨C8_run_policy_and_paused_reconcile.1
      [("retries", PyVal.int 0), ("max_retries", PyVal.int 3)] (PyVal.int 3)
      (by decide) (by decide) (by decide),
   C8_run_policy_and_paused_reconcile.2.1
      [("retries", PyVal.int 7), ("max_retries", PyVal.int 3)]
      (Or.inl (by decide))⟩

theorem PyDict.get_map_trunc (d : PyDict) (k : String) :
    PyDict.get (d.map (fun kv => (kv.1, truncVal kv.2))) k
      = (PyDict.get d k).map truncVal := by
  induction d with
  | nil => simp [PyDict.get]
  | cons kv rest ih =>
      obtain ⟨k1, v1⟩ := kv
      by_cases h : k1 = k
      · simp [PyDict.get, h]
      · simp [PyDict.get, h, ih]

/-- C9: `validate_max_metadata_length` maps `None` to `None` and never
raises; every value whose string representation exceeds 500 characters is
replaced by its first 500 characters plus the `"..."` marker (total length
503, ending in the marker), and every other value is left unchanged; in
particular `{"k": "x"*600}` yields a value of length 503 ending in the
marker and `{"k": "short"}` is returned unchanged. -/
theorem C9_metadata_truncation :
    validate_max_metadata_length Option.none = Option.none
    ∧ (∀ (d : PyDict) (k : String) (val : PyVal),
        PyDict.get d k = some val →
        ∃ d', validate_max_metadata_length (some d) = some d'
          ∧ PyDict.get d' k = some (truncVal val))
    ∧ (∀ val : PyVal, (pyStr val).length > 500 →
        truncVal val = PyVal.str (strTake (pyStr val) 500 ++ "...")
        ∧ (pyStr (truncVal val)).length = 503
        ∧ (pyStr (truncVal val)).data.drop 500 = ['.', '.', '.'])
    ∧ (∀ val : PyVal, (pyStr val).length ≤ 500 → truncVal val = val)
    ∧ validate_max_metadata_length (some [("k", PyVal.str x600)])
        = some [("k", PyVal.str (strTake x600 500 ++ "..."))]
    ∧ (strTake x600 500 ++ "...").length = 503
    ∧ (strTake x600 500 ++ "...").data.drop 500 = ['.', '.', '.']
    ∧ validate_max_metadata_length (some [("k", PyVal.str "short")])
        = some [("k", PyVal.str "short")] := by
  have hdrop : ∀ l : List Char, l.length > 500 →
      (l.take 500 ++ "...".data).drop 500 = ['.', '.', '.'] := by
    intro l h
    have h500 : (l.take 500).length = 500 := by
      simp only [List.length_take]
      omega
    exact List.drop_left' h500
  have hlen : ∀ l : List Char, l.length > 500 →
      (l.take 500 ++ "...".data).length = 503 := by
    intro l h
    simp only [List.length_append, List.length_take, List.length_cons,
      List.length_nil]
    omega
  refine ⟨rfl, ?_, ?_, ?_, ?_, ?_, ?_, ?_⟩
  · intro d k val h
    refine ⟨_, rfl, ?_⟩
    rw [PyDict.get_map_trunc, h]
    rfl
  · intro val h
    have ht : truncVal val = PyVal.str (strTake (pyStr val) 500 ++ "...") := by
      unfold truncVal
      rw [if_pos h]
    refine ⟨ht, ?_, ?_⟩
    · rw [ht]
      show ((pyStr val).data.take 500 ++ "...".data).length = 503
      exact hlen _ h
    · rw [ht]
      show ((pyStr val).data.take 500 ++ "...".data).drop 500 = ['.', '.', '.']
      exact hdrop _ h
  · intro val h
    unfold truncVal
    rw [if_neg (by omega)]
  · have hx : (pyStr (PyVal.str x600)).length > 500 := by
      show (List.replicate 600 'x').length > 500
      simp only [List.length_replicate]
      decide
    show some [("k", truncVal (PyVal.str x600))] = _
    unfold truncVal
    rw [if_pos hx]
    rfl
  · show ((List.replicate 600 'x').take 500 ++ "...".data).length = 503
    apply hlen
    simp only [List.length_replicate]
    decide
  · show ((List.replicate 600 'x').take 500 ++ "...".data).drop 500
        = ['.', '.', '.']
    apply hdrop
    simp only [List.length_replicate]
    decide
  · show some [("k", truncVal (PyVal.str "short"))] = _
    rfl

/-- Witness for C9: its quantified conjuncts applied at concrete inputs. -/
theorem C9_witness :
    (∃ d', validate_max_metadata_length (some [("k", PyVal.str "short")])
        = some d'
      ∧ PyDict.get d' "k" = some (truncVal (PyVal.str "short")))
    ∧ truncVal (PyVal.str "short") = PyVal.str "short" :=
  ⟨C9_metadata_truncation.2.1 [("k", PyVal.str "short")] "k"
      (PyVal.str "short") (by decide),
   C9_metadata_truncation.2.2.2.1 (PyVal.str "short") (by decide)⟩

/-- C1: whenever a cron string, split on whitespace, contains a standalone
token that casefolds into the source's `["R", "H", "r", "h"]` list,
`validate_cron_string` raises (as `ScheduleSyntaxError`, a `ValueError`)
even when the external cron checker accepts the string; and on
`"0 0 * * *"`, accepted by the external checker and containing no such
token, it returns the string unchanged. -/
theorem C1_cron_random_hash_rejected (is_valid : String → Bool) (v : String)
    (hrh : (pySplit v).any
        (fun c => ["R", "H", "r", "h"].contains (caseFold c)) = true)
    (hacc : is_valid v = true)
    (hstd : is_valid "0 0 * * *" = true) :
    validate_cron_string is_valid v
      = Except.error
          ("Random and Hashed expressions are unsupported, received: \"" ++ v ++ "\"")
    ∧ validate_cron_string is_valid "0 0 * * *" = Except.ok "0 0 * * *" := by
  constructor
  · unfold validate_cron_string
    rw [hacc, hrh]
    rfl
  · have h0 : (pySplit "0 0 * * *").any
        (fun c => ["R", "H", "r", "h"].contains (caseFold c)) = false := by
      decide
    unfold validate_cron_string
    rw [hstd, h0]
    rfl

/-- Witness for C1: a checker that accepts everything, applied to
`"R * * * *"`. -/
theorem C1_witness :
    validate_cron_string (fun _ => true) "R * * * *"
      = Except.error
          ("Random and Hashed expressions are unsupported, received: \"R * * * *\"")
    ∧ validate_cron_string (fun _ => true) "0 0 * * *" = Except.ok "0 0 * * *" :=
  C1_cron_random_hash_rejected (fun _ => true) "R * * * *" (by decide) rfl rfl

/-- C2: `default_timezone` rejects an explicit non-empty timezone outside
the IANA table with a `TimezoneError` (`ValueError`); returns any other
explicit value (including `""`, which does not fall through to anchor
inference) unchanged; with no explicit timezone and an anchor date it
returns the anchor's zone name when that name is in the IANA table and
`"UTC"` when the anchor's zone is absent or its name (such as a bare
numeric UTC offset like `"+00:00"`) is not in the table; and with no
explicit timezone and no anchor it returns `None` unchanged. -/
theorem C2_default_timezone_resolution (timezones : List String) :
    (∀ (s : String) (anchor : Option PDateTime), s ≠ "" → s ∉ timezones →
      default_timezone timezones (some s) anchor
        = Except.error ("Invalid timezone: \"" ++ s ++
            "\" (specify in IANA tzdata format, for example, America/New_York)"))
    ∧ (∀ (s : String) (anchor : Option PDateTime), s = "" ∨ s ∈ timezones →
      default_timezone timezones (some s) anchor = Except.ok (some s))
    ∧ (∀ n : String, n ∈ timezones →
      default_timezone timezones Option.none (some ⟨some n⟩)
        = Except.ok (some n))
    ∧ (∀ n : String, n ∉ timezones →
      default_timezone timezones Option.none (some ⟨some n⟩)
        = Except.ok (some "UTC"))
    ∧ default_timezone timezones Option.none (some ⟨Option.none⟩)
        = Except.ok (some "UTC")
    ∧ default_timezone timezones Option.none Option.none
        = Except.ok Option.none := by
  refine ⟨?_, ?_, ?_, ?_, ?_, rfl⟩
  · intro s anchor hne hnotin
    show (if s ≠ "" ∧ s ∉ timezones then _ else _) = _
    rw [if_pos ⟨hne, hnotin⟩]
  · intro s anchor hor
    show (if s ≠ "" ∧ s ∉ timezones then _ else _) = _
    rw [if_neg]
    intro hand
    rcases hor with h | h
    · exact hand.1 h
    · exact hand.2 h
  · intro n hin
    show Except.ok (some (if n ∈ timezones then n else "UTC")) = _
    rw [if_pos hin]
  · intro n hnotin
    show Except.ok (some (if n ∈ timezones then n else "UTC")) = _
    rw [if_neg hnotin]
  · show Except.ok (some (if "UTC" ∈ timezones then "UTC" else "UTC")) = _
    rw [ite_self]

/-- Witness for C2: a concrete IANA table, the offset-only pseudo-zone
`"+00:00"`, a named zone, and a rejected explicit zone. -/
theorem C2_witness :
    default_timezone ["UTC", "America/New_York"] Option.none
        (some ⟨some "+00:00"⟩) = Except.ok (some "UTC")
    ∧ default_timezone ["UTC", "America/New_York"] Option.none
        (some ⟨some "America/New_York"⟩) = Except.ok (some "America/New_York")
    ∧ default_timezone ["UTC", "America/New_York"] (some "Mars/Olympus")
        Option.none
      = Except.error ("Invalid timezone: \"Mars/Olympus\"" ++
          " (specify in IANA tzdata format, for example, America/New_York)")
    ∧ default_timezone ["UTC", "America/New_York"] (some "") Option.none
      = Except.ok (some "") :=
  ⟨(C2_default_timezone_resolution ["UTC", "America/New_York"]).2.2.2.1
      "+00:00" (by decide),
   (C2_default_timezone_resolution ["UTC", "America/New_York"]).2.2.1
      "America/New_York" (by decide),
   (C2_default_timezone_resolution ["UTC", "America/New_York"]).1
      "Mars/Olympus" Option.none (by decide) (by decide),
   (C2_default_timezone_resolution ["UTC", "America/New_York"]).2.1
      "" Option.none (Or.inl rfl)⟩

/-- Counterexample to C3 as stated: a string of length 6501 (longer than
6500) that the external parser rejects is refused with the parse-error
(`ScheduleSyntaxError`) raise, which embeds the full string, and not with
the max-length (`ScheduleLimitError`) raise: the source tries the parse
before checking the length. -/
theorem C3_counterexample :
    bigX6501.length = 6501
    ∧ validate_rrule_string (fun _ => Except.error "bad") bigX6501
        = RRuleResult.scheduleSyntaxError bigX6501 "bad"
    ∧ RRuleResult.isLimitError
        (validate_rrule_string (fun _ => Except.error "bad") bigX6501) = false := by
  refine ⟨?_, rfl, rfl⟩
  show (List.replicate 6501 'x').length = 6501
  simp only [List.length_replicate]

/-- C3 as amended: every recurrence-rule string longer than 6500 characters
that the external parser accepts is rejected with the max-length
(`ScheduleLimitError`) raise, whose message embeds only the first 40
characters; a longer string the parser rejects is instead refused with the
parse (`ScheduleSyntaxError`) raise. -/
theorem C3_amended_length_cap (rrulestr : String → Except String Unit)
    (v : String) (hlen : v.length > MAX_RRULE_LENGTH) :
    (rrulestr v = Except.ok () →
      validate_rrule_string rrulestr v
        = RRuleResult.scheduleLimitError (strTake v 40) v.length)
    ∧ (∀ msg, rrulestr v = Except.error msg →
      validate_rrule_string rrulestr v
        = RRuleResult.scheduleSyntaxError v msg) := by
  constructor
  · intro hok
    unfold validate_rrule_string
    rw [hok, if_pos hlen]
  · intro msg hbad
    unfold validate_rrule_string
    rw [hbad]

/-- Witness for the amended C3 at a concrete over-long input. -/
theorem C3_witness :
    bigX6501.length > MAX_RRULE_LENGTH
    ∧ validate_rrule_string (fun _ => Except.ok ()) bigX6501
        = RRuleResult.scheduleLimitError (strTake bigX6501 40) bigX6501.length :=
  ⟨by show (List.replicate 6501 'x').length > 6500
      simp only [List.length_replicate]
      decide,
   (C3_amended_length_cap (fun _ => Except.ok ()) bigX6501
      (by show (List.replicate 6501 'x').length > 6500
          simp only [List.length_replicate]
          decide)).1 rfl⟩

/-- C4: every recurrence-rule string of length exactly 6501 that the
external parser accepts is rejected with the max-length
(`ScheduleLimitError`) raise, and the excerpt embedded in that error is
exactly the first 40 characters of the input. -/
theorem C4_limit_error_excerpt (rrulestr : String → Except String Unit)
    (v : String) (hlen : v.length = 6501)
    (hok : rrulestr v = Except.ok ()) :
    validate_rrule_string rrulestr v
      = RRuleResult.scheduleLimitError (strTake v 40) 6501
    ∧ (strTake v 40).data = v.data.take 40
    ∧ (strTake v 40).length = 40 := by
  refine ⟨?_, rfl, ?_⟩
  · unfold validate_rrule_string
    rw [hok, if_pos (by rw [hlen]; decide), hlen]
  · show (v.data.take 40).length = 40
    have hd : v.data.length = 6501 := hlen
    simp only [List.length_take, hd]
    decide

/-- Witness for C4 at `"x" * 6501` with an accepting parser. -/
theorem C4_witness :
    bigX6501.length = 6501
    ∧ (validate_rrule_string (fun _ => Except.ok ()) bigX6501
        = RRuleResult.scheduleLimitError (strTake bigX6501 40) 6501
      ∧ (strTake bigX6501 40).data = bigX6501.data.take 40
      ∧ (strTake bigX6501 40).length = 40) :=
  ⟨by show (List.replicate 6501 'x').length = 6501
      simp only [List.length_replicate],
   C4_limit_error_excerpt (fun _ => Except.ok ()) bigX6501
      (by show (List.replicate 6501 'x').length = 6501
          simp only [List.length_replicate]) rfl⟩

theorem reMatch_append_newline (allowed : Char → Bool) (s : String)
    (hs : s.data.all allowed = true) :
    reMatchClassStarDollar allowed (s ++ "\n") = true := by
  show ((s.data ++ ['\n']).all allowed ||
      ((s.data ++ ['\n']).getLast? == some '\n'
        && (s.data ++ ['\n']).dropLast.all allowed)) = true
  rw [List.getLast?_concat, List.dropLast_concat, hs]
  simp

theorem reMatch_append_two_newlines (allowed : Char → Bool) (s : String)
    (hnl : allowed '\n' = false) :
    reMatchClassStarDollar allowed (s ++ "\n\n") = false := by
  show ((s.data ++ (['\n'] ++ ['\n'])).all allowed ||
      ((s.data ++ (['\n'] ++ ['\n'])).getLast? == some '\n'
        && (s.data ++ (['\n'] ++ ['\n'])).dropLast.all allowed)) = false
  rw [← List.append_assoc, List.getLast?_concat, List.dropLast_concat]
  simp [List.all_append, hnl]

/-- C10: because the guards use Python `re.match` with a `$` anchor, each
accepts any all-allowed string followed by one trailing newline, returning
it unchanged even though `\n` is outside the allowed class, while two or
more trailing newlines are rejected. -/
theorem C10_trailing_newline_accepted (fn : String) :
    allowedDash '\n' = false
    ∧ allowedUnderscore '\n' = false
    ∧ (∀ s : String, s.data.all allowedDash = true →
        raise_on_name_alphanumeric_dashes_only (some (s ++ "\n")) fn
            = Except.ok (some (s ++ "\n"))
        ∧ exceptIsError
            (raise_on_name_alphanumeric_dashes_only (some (s ++ "\n\n")) fn)
            = true)
    ∧ (∀ s : String, s.data.all allowedUnderscore = true →
        raise_on_name_alphanumeric_underscores_only (some (s ++ "\n")) fn
            = Except.ok (some (s ++ "\n"))
        ∧ exceptIsError
            (raise_on_name_alphanumeric_underscores_only (some (s ++ "\n\n")) fn)
            = true) := by
  refine ⟨rfl, rfl, ?_, ?_⟩
  · intro s hs
    constructor
    · show (if !reMatchClassStarDollar allowedDash (s ++ "\n") then _ else _)
          = _
      rw [reMatch_append_newline allowedDash s hs]
      rfl
    · show exceptIsError
          (if !reMatchClassStarDollar allowedDash (s ++ "\n\n") then _ else _)
          = true
      rw [reMatch_append_two_newlines allowedDash s rfl]
      rfl
  · intro s hs
    constructor
    · show (if !reMatchClassStarDollar allowedUnderscore (s ++ "\n") then _ else _)
          = _
      rw [reMatch_append_newline allowedUnderscore s hs]
      rfl
    · show exceptIsError
          (if !reMatchClassStarDollar allowedUnderscore (s ++ "\n\n") then _ else _)
          = true
      rw [reMatch_append_two_newlines allowedUnderscore s rfl]
      rfl

/-- Witness for C10 at `"abc"`. -/
theorem C10_witness :
    raise_on_name_alphanumeric_dashes_only (some ("abc" ++ "\n")) "value"
        = Except.ok (some ("abc" ++ "\n"))
    ∧ exceptIsError
        (raise_on_name_alphanumeric_dashes_only (some ("abc" ++ "\n\n")) "value")
        = true :=
  (C10_trailing_newline_accepted "value").2.2.1 "abc" (by decide)

mutual
theorem hasNestedKey_remove (keys : List String) (k : String) (hk : k ∈ keys) :
    ∀ j : Json, hasNestedKey k (remove_nested_keys keys j) = false
  | Json.null => by simp [remove_nested_keys, hasNestedKey]
  | Json.bool b => by simp [remove_nested_keys, hasNestedKey]
  | Json.num n => by simp [remove_nested_keys, hasNestedKey]
  | Json.str s => by simp [remove_nested_keys, hasNestedKey]
  | Json.arr xs => by
      simp only [remove_nested_keys, hasNestedKey]
      exact hasNKArr_remove keys k hk xs
  | Json.obj kvs => by
      simp only [remove_nested_keys, hasNestedKey]
      exact hasNKObj_remove keys k hk kvs

theorem hasNKObj_remove (keys : List String) (k : String) (hk : k ∈ keys) :
    ∀ kvs : List (String × Json), hasNKObj k (removeNKObj keys kvs) = false
  | [] => by simp [removeNKObj, hasNKObj]
  | (k2, v) :: rest => by
      by_cases h : k2 ∈ keys
      · simp only [removeNKObj, if_pos h]
        exact hasNKObj_remove keys k hk rest
      · have hne : k2 ≠ k := fun he => h (he ▸ hk)
        simp only [removeNKObj, if_neg h, hasNKObj]
        simp [hne, hasNestedKey_remove keys k hk v,
          hasNKObj_remove keys k hk rest]

theorem hasNKArr_remove (keys : List String) (k : String) (hk : k ∈ keys) :
    ∀ xs : List Json, hasNKArr k (removeNKArr keys xs) = false
  | [] => by simp [removeNKArr, hasNKArr]
  | x :: rest => by
      simp only [removeNKArr, hasNKArr]
      simp [hasNestedKey_remove keys k hk x, hasNKArr_remove keys k hk rest]
end

theorem validate_ir_strip (engine : Json → Json → JsOutcome)
    (values : Option Json) (s : Json) :
    validate_values_conform_to_schema engine values (some s) true
      = validate_values_conform_to_schema engine values
          (some (remove_nested_keys ["required"] s)) false := rfl

theorem strip_schemaReq :
    remove_nested_keys ["required"] schemaReq = strippedSchemaReq := by
  simp [schemaReq, strippedSchemaReq, remove_nested_keys, removeNKObj,
    removeNKArr]

/-- C5: `validate_values_conform_to_schema` with `ignore_required` strips
every `required` key from the schema at every nesting level before instance
validation, so a values mapping omitting a required field is accepted,
while a value whose type mismatches the schema is still rejected whether or
not `ignore_required` is set. -/
theorem C5_ignore_required_strips_and_still_type_checks :
    (∀ (keys : List String) (k : String) (j : Json), k ∈ keys →
      hasNestedKey k (remove_nested_keys keys j) = false)
    ∧ validate_values_conform_to_schema jsValidate (some valuesMissing)
        (some schemaReq) true = Except.ok ()
    ∧ exceptIsError (validate_values_conform_to_schema jsValidate
        (some valuesMissing) (some schemaReq) false) = true
    ∧ exceptIsError (validate_values_conform_to_schema jsValidate
        (some valuesBadType) (some schemaReq) true) = true
    ∧ exceptIsError (validate_values_conform_to_schema jsValidate
        (some valuesBadType) (some schemaReq) false) = true := by
  refine ⟨?_, ?_, by decide, ?_, by decide⟩
  · intro keys k j hk
    exact hasNestedKey_remove keys k hk j
  · rw [validate_ir_strip, strip_schemaReq]
    rfl
  · rw [validate_ir_strip, strip_schemaReq]
    decide

/-- Witness for C5: the stripping conjunct applied at the concrete schema. -/
theorem C5_witness :
    hasNestedKey "required" (remove_nested_keys ["required"] schemaReq)
      = false :=
  C5_ignore_required_strips_and_still_type_checks.1 ["required"] "required"
    schemaReq (by simp)

/-- Counterexample to C6 as stated: the source computes the field name with
Python `str.replace`, which removes every occurrence of `"$."`, not only
the leading prefix. With a property named `"a$"` holding a failing nested
property `"b"`, the engine reports path `"$.a$.b"`; the raised message
names the field `ab`, while the claim's prefix-removal reading predicts
`a$.b`. -/
theorem C6_counterexample :
    validate_values_conform_to_schema jsValidate (some c6values)
        (some c6schema) false
      = Except.error ("Validation failed for field \x27ab\x27. Failure reason: value is not of type \x27integer\x27")
    ∧ specPrefixStripped "$.a$.b" = "a$.b"
    ∧ "Validation failed for field \x27ab\x27. Failure reason: value is not of type \x27integer\x27"
      ≠ "Validation failed for field \x27" ++ specPrefixStripped "$.a$.b"
          ++ "\x27. Failure reason: value is not of type \x27integer\x27" := by
  refine ⟨rfl, by decide, by decide⟩

/-- C6 as amended: whenever the engine reports a conformance failure, the
raised message is exactly `"Validation failed. Failure reason: <detail>"`
when the reported path is the document root `"$"`, and exactly
`"Validation failed for field <name>. Failure reason: <detail>"` where
the quoted field name is the reported path with every occurrence of the substring
`"$."` removed (which equals removing the `"$."` prefix whenever no
property name itself contains `"$."`). -/
theorem C6_amended_error_message (engine : Json → Json → JsOutcome)
    (values schema : Option Json) (ignore_required : Bool)
    (vv s : Json) (exc : VErr)
    (hs : (if ignore_required
        then Option.map (remove_nested_keys ["required"]) schema
        else schema) = some s)
    (hv : values = some vv)
    (he : engine vv s = JsOutcome.validationError exc) :
    validate_values_conform_to_schema engine values schema ignore_required
      = Except.error ((if exc.json_path = "$" then "Validation failed."
          else "Validation failed for field \x27"
            ++ pyReplace exc.json_path "$." "" ++ "\x27.")
          ++ " Failure reason: " ++ exc.message) := by
  unfold validate_values_conform_to_schema
  simp only [hv, hs, he]

/-- Witness for the amended C6 at the concrete nested-failure input. -/
theorem C6_witness :
    jsValidate c6values c6schema
      = JsOutcome.validationError
          ⟨"$.a$.b", "value is not of type \x27integer\x27"⟩
    ∧ validate_values_conform_to_schema jsValidate (some c6values)
        (some c6schema) false
      = Except.error ((if "$.a$.b" = "$" then "Validation failed."
          else "Validation failed for field \x27"
            ++ pyReplace "$.a$.b" "$." "" ++ "\x27.")
          ++ " Failure reason: " ++ "value is not of type \x27integer\x27") :=
  ⟨by decide,
   C6_amended_error_message jsValidate (some c6values) (some c6schema) false
     c6values c6schema ⟨"$.a$.b", "value is not of type \x27integer\x27"⟩
     rfl rfl (by decide)⟩
